import Mathlib

/-!
Verification of the StrategicSurveyEngine frontend against its design
specification.  The definitions below are shallow embeddings of the
TypeScript source under src/frontend/src and src/unnamed; backend
behaviour that is documented in the design but whose Python source is not
part of the repository snapshot is modelled from the specification and
marked as such in the corresponding doc comment.
-/

namespace SSE

/-! Priority scoring (SurveyModeration.tsx, ManagerDashboard.tsx). -/

/-- The priority-score expression of the moderation edit form
(`SurveyModeration.tsx` lines 583 and 1111):
`(editForm.importance + editForm.urgency + editForm.expected_impact) * 2 +
editForm.supporter_points`. -/
def editFormScore (importance urgency expected_impact supporter_points : Int) : Int :=
  (importance + urgency + expected_impact) * 2 + supporter_points

/-- The function `priorityStars` from `SurveyModeration.tsx` lines 21-27:
number of full stars derived from a priority score. -/
def priorityStars_full (score : Int) : Nat :=
  if score ≥ 12 then 5
  else if score ≥ 9 then 4
  else if score ≥ 6 then 3
  else if score ≥ 3 then 2
  else 1

/-- The inline star computation of `StarRating` in `ManagerDashboard.tsx`
line 22: `score >= 12 ? 5 : score >= 9 ? 4 : score >= 6 ? 3 : score >= 3 ? 2 : 1`. -/
def managerStarRatingFull (score : Int) : Nat :=
  if score ≥ 12 then 5
  else if score ≥ 9 then 4
  else if score ≥ 6 then 3
  else if score ≥ 3 then 2
  else 1

/-! Publishing opinions (SurveyModeration.tsx; backend modelled). -/

/-- A published opinion as the moderation view consumes it
(`types/api.ts`, interface `PublishedOpinion`; only the fields the claims
need). -/
structure PublishedOpinionRec where
  id : Int
  raw_response_id : String
  title : String
  content : String
  deriving DecidableEq

/-- The memo `publishedResponseIds` from `SurveyModeration.tsx` lines
208-211: the set of raw-response ids already referenced by a published
opinion, here as the list of ids whose membership is queried. -/
def publishedResponseIds (opinions : List PublishedOpinionRec) : List String :=
  opinions.map (fun o => o.raw_response_id)

/-- The publish-form gating of `SurveyModeration.tsx` lines 387-403: the
publish form is rendered only under `!publishedResponseIds.has(r.id)`. -/
def offersPublishForm (opinions : List PublishedOpinionRec) (responseId : String) : Bool :=
  ! (publishedResponseIds opinions).contains responseId

/-- Failure kinds of the modelled backend operations (spec section 7). -/
inductive ApiFailure where
  | DuplicatePublish
  | AlreadySupported
  | SurveyNotActive
  | AuthDenied
  | NotFound
  deriving DecidableEq

/-- Modelled from the spec: the backend publish-opinion endpoint
(`POST /admin/surveys/.../opinions`) is not part of the repository
snapshot; per the spec it "creates PublishedOpinion; rejects duplicate
raw-response publish" with `DuplicatePublish`, enforcing at most one
opinion per RawResponse before insert. -/
def publishOpinion (opinions : List PublishedOpinionRec) (newOp : PublishedOpinionRec) :
    Except ApiFailure (List PublishedOpinionRec) :=
  if opinions.any (fun o => o.raw_response_id == newOp.raw_response_id) then
    .error .DuplicatePublish
  else
    .ok (opinions ++ [newOp])

/-- At most one published opinion references any raw response: the stored
opinions have pairwise distinct raw-response ids. -/
def AtMostOnePerResponse (opinions : List PublishedOpinionRec) : Prop :=
  opinions.Pairwise (fun a b => a.raw_response_id ≠ b.raw_response_id)

/-! Upvotes (part_005 SurveySearch; backend modelled). -/

/-- An upvote row as the spec's UpvoteDeduplicator stores it (only the
fields the dedup invariant needs). -/
structure UpvoteRec where
  opinion_id : Int
  fingerprint : String
  deriving DecidableEq

/-- Outcome of the spec's `support(opinionId, fingerprint, ...)`. -/
inductive SupportOutcome where
  | Accepted
  | AlreadySupported
  deriving DecidableEq

/-- Modelled from the spec: `UpvoteDeduplicator.support` and its backing
endpoint are not part of the repository snapshot; per the spec it enforces
uniqueness of `(opinionId, fingerprint)` - a second call with the same pair
is rejected with `AlreadySupported` and must not create a second row. The
returned list is the stored upvote table after the call. -/
def support (upvotes : List UpvoteRec) (opinionId : Int) (fp : String) :
    SupportOutcome × List UpvoteRec :=
  if upvotes.any (fun u => u.opinion_id == opinionId && u.fingerprint == fp) then
    (.AlreadySupported, upvotes)
  else
    (.Accepted, upvotes ++ [⟨opinionId, fp⟩])

/-- The supporter count of an opinion, recomputed on read as the number of
stored upvotes for it (spec section 4.6). -/
def supporterCount (upvotes : List UpvoteRec) (opinionId : Int) : Nat :=
  (upvotes.filter (fun u => u.opinion_id == opinionId)).length

/-- At most one upvote exists per (opinion, fingerprint) pair. -/
def AtMostOnePerPair (upvotes : List UpvoteRec) : Prop :=
  upvotes.Pairwise (fun a b => a.opinion_id ≠ b.opinion_id ∨ a.fingerprint ≠ b.fingerprint)

/-- A public opinion card as `SurveySearch` consumes it (`types/api.ts`,
interface `PublicOpinionItem`; fields the claims need; `supporters` kept
optional to mirror the defensive `o.supporters ?? 0` in the source). -/
structure PublicOpinionItem where
  id : Int
  supporters : Option Int
  current_user_has_supported : Bool
  deriving DecidableEq

/-- The per-element update of `upvoteMutation.onSuccess` in `part_005`
lines 57-71: the matching opinion gets `supporters: (o.supporters ?? 0) + 1`
and `current_user_has_supported: true`; every other opinion is unchanged. -/
def applyUpvoteSuccessOne (opinionId : Int) (o : PublicOpinionItem) : PublicOpinionItem :=
  if o.id == opinionId then
    { o with supporters := some (o.supporters.getD 0 + 1), current_user_has_supported := true }
  else o

/-- The cache update of `upvoteMutation.onSuccess` maps the per-element
update over the cached opinion list (`part_005` lines 57-71). -/
def applyUpvoteSuccess (old : List PublicOpinionItem) (opinionId : Int) :
    List PublicOpinionItem :=
  old.map (applyUpvoteSuccessOne opinionId)

/-- The support-action area of an opinion card (`part_005` lines 170-268):
the "Already supported" text when the user has supported, otherwise the
upvote form when this card is the open one, otherwise the Support button. -/
inductive SupportControl where
  | alreadySupported
  | upvoteForm
  | supportButton
  deriving DecidableEq

/-- Which support control the opinion card renders (`part_005` lines
170-268): the branch order of the JSX conditional. -/
def supportControl (o : PublicOpinionItem) (upvoteOpinionId : Option Int) : SupportControl :=
  if o.current_user_has_supported then .alreadySupported
  else if upvoteOpinionId == some o.id then .upvoteForm
  else .supportButton

/-! Manager token storage and scoping (part_001; backend modelled). -/

/-- Browser local storage, modelled as a partial map from keys to the
stored strings. -/
def LocalStorage : Type := String → Option String

/-- The constant `MANAGER_TOKEN_KEY` from `part_001` line 325. -/
def MANAGER_TOKEN_KEY : String := "manager_token"

/-- The function `normalizeSurveyId` from `part_001` lines 150-152: strip a
leading colon if present (the TypeScript conditional
`surveyId.startsWith(":") ? surveyId.slice(1) : surveyId`, here expressed
on the character list so that it evaluates by reduction). -/
def normalizeSurveyId (surveyId : String) : String :=
  match surveyId.data with
  | ':' :: rest => String.mk rest
  | _ => surveyId

/-- The local-storage key used by `getManagerToken`, `setManagerToken` and
`clearManagerToken` (`part_001` lines 327-341): the template string
`manager_token_` followed by the normalized survey id. -/
def managerTokenKey (surveyId : String) : String :=
  MANAGER_TOKEN_KEY ++ "_" ++ normalizeSurveyId surveyId

/-- The function `getManagerToken` from `part_001` lines 327-333. -/
def getManagerToken (store : LocalStorage) (surveyId : String) : Option String :=
  store (managerTokenKey surveyId)

/-- The function `setManagerToken` from `part_001` lines 335-337
(`localStorage.setItem` replaces the value stored under the one key). -/
def setManagerToken (store : LocalStorage) (surveyId token : String) : LocalStorage :=
  fun k => if k = managerTokenKey surveyId then some token else store k

/-- The `Authorization` header value that `managerHeaders` from `part_001`
lines 357-363 attaches: `Bearer` plus the stored token; a missing (or, via
string truthiness, empty) token attaches nothing. -/
def managerAuthHeader (store : LocalStorage) (surveyId : String) : Option String :=
  match getManagerToken store surveyId with
  | some t => if t = "" then none else some ("Bearer " ++ t)
  | none => none

/-- A manager bearer token together with the survey it was issued for. -/
structure ManagerToken where
  survey_id : String
  deriving DecidableEq

/-- Modelled from the spec: the backend check of a manager token is not
part of the repository snapshot; per the spec the token is scoped to its
issuing survey identifier and presenting it against a different survey
identifier must fail (`AuthDenied`). -/
def verifyManagerToken (tok : ManagerToken) (surveyId : String) : Except ApiFailure Unit :=
  if tok.survey_id == surveyId then .ok () else .error .AuthDenied

/-! Survey lifecycle and submission (SurveyPost.tsx; backend modelled). -/

/-- What the submission page renders once the survey data has loaded
(`SurveyPost.tsx` lines 99-186): the closed notice - which contains no
submission form, so no submit request can be issued from it - or the
submission form. -/
inductive PostView where
  | closed
  | form
  deriving DecidableEq

/-- The status branch of `SurveyPost` (`SurveyPost.tsx` line 99):
`if (data.status !== "active")` the closed notice is returned before the
form is ever rendered. -/
def surveyPostView (status : String) : PostView :=
  if status ≠ "active" then .closed else .form

/-- A question as the public submission form receives it (`types/api.ts`,
interface `Question`; the fields the claims need). -/
structure QuestionRec where
  id : Nat
  is_required : Bool
  is_personal_data : Bool
  deriving DecidableEq

/-- A survey's tenant data together with its lifecycle dates (spec
section 3); times are abstract integers. -/
structure SurveyTenant where
  contract_end_date : Int
  deletion_due_date : Int
  questions : List QuestionRec
  opinions : List PublishedOpinionRec

/-- Modelled from the spec: the LifecycleAutomaton (spec section 4.3) is
not part of the repository snapshot; status is derived lazily from the two
dates on every access: past `deletion_due_date` means deleted, past
`contract_end_date` means suspended, otherwise active. -/
def deriveStatus (contractEnd deletionDue now : Int) : String :=
  if deletionDue < now then "deleted"
  else if contractEnd < now then "suspended"
  else "active"

/-- Modelled from the spec: the submit-response endpoint is not part of
the repository snapshot; per the spec a write against a survey that is not
active is rejected with `SurveyNotActive`. -/
def submitResponse (s : SurveyTenant) (now : Int) : Except ApiFailure Unit :=
  if deriveStatus s.contract_end_date s.deletion_due_date now ≠ "active" then
    .error .SurveyNotActive
  else
    .ok ()

/-- Modelled from the spec: the public list-questions read is not part of
the repository snapshot; reads remain allowed while a survey is suspended
and fail with `NotFound` only once it is deleted. -/
def listQuestionsApi (s : SurveyTenant) (now : Int) : Except ApiFailure (List QuestionRec) :=
  if deriveStatus s.contract_end_date s.deletion_due_date now = "deleted" then
    .error .NotFound
  else
    .ok s.questions

/-- Modelled from the spec: the public search-opinions read is not part of
the repository snapshot; same read rule as `listQuestionsApi`, with the
empty query returning all published opinions. -/
def searchOpinionsApi (s : SurveyTenant) (now : Int) (q : String) :
    Except ApiFailure (List PublishedOpinionRec) :=
  if deriveStatus s.contract_end_date s.deletion_due_date now = "deleted" then
    .error .NotFound
  else
    .ok (if q = "" then s.opinions
         else s.opinions.filter
           (fun o => decide ((o.title.splitOn q).length > 1 ∨ (o.content.splitOn q).length > 1)))

/-! Submission payload and upvote request body (SurveyPost.tsx, part_001). -/

/-- Model of the JavaScript string trim used throughout the source:
whitespace is stripped from both ends.  Written over the character list so
that it evaluates by reduction. -/
def trimWS (s : String) : String :=
  String.mk (((s.data.dropWhile Char.isWhitespace).reverse.dropWhile Char.isWhitespace).reverse)

/-- An answer row of the submission payload (`types/api.ts`, interface
`AnswerSubmit`). -/
structure AnswerSubmit where
  question_id : Nat
  answer_text : String
  is_disclosure_agreed : Bool
  deriving DecidableEq

/-- The payload construction of `SurveyPost.handleSubmit`
(`SurveyPost.tsx` lines 36-51): keep the questions whose entered answer
trims to a non-empty string, and map each to an `AnswerSubmit` whose
disclosure flag is the form-wide checkbox only for personal-data
questions. -/
def handleSubmitPayload (questions : List QuestionRec) (answers : Nat → Option String)
    (disclosureAgreed : Bool) : List AnswerSubmit :=
  (questions.filter (fun q =>
      match answers q.id with
      | some v => trimWS v != ""
      | none => false)).map
    (fun q =>
      { question_id := q.id
        answer_text := trimWS ((answers q.id).getD "")
        is_disclosure_agreed := if q.is_personal_data then disclosureAgreed else false })

/-- The client-side upvote payload (`types/api.ts`, interface
`UpvoteCreatePayload`); every field is optional. -/
structure UpvoteCreatePayload where
  comment : Option String
  dept : Option String
  name : Option String
  email : Option String
  is_disclosure_agreed : Option Bool
  deriving DecidableEq

/-- The JSON body `postUpvote` sends (`part_001` lines 206-212). -/
structure UpvoteRequestBody where
  comment : Option String
  dept : Option String
  name : Option String
  email : Option String
  is_disclosure_agreed : Bool
  deriving DecidableEq

/-- The per-field normalization of `postUpvote` (`part_001` lines 207-210):
`x != null && x.trim() ? x.trim() : null` - a missing, empty or
whitespace-only value becomes null, anything else its trimmed text. -/
def normalizeOptionalField (x : Option String) : Option String :=
  match x with
  | some s => if trimWS s = "" then none else some (trimWS s)
  | none => none

/-- The request body built by `postUpvote` (`part_001` lines 206-212);
`is_disclosure_agreed` is `payload.is_disclosure_agreed ?? false`. -/
def postUpvoteBody (p : UpvoteCreatePayload) : UpvoteRequestBody :=
  { comment := normalizeOptionalField p.comment
    dept := normalizeOptionalField p.dept
    name := normalizeOptionalField p.name
    email := normalizeOptionalField p.email
    is_disclosure_agreed := p.is_disclosure_agreed.getD false }

/-- The shape claim C10 asserts of each optional body field: it is null or
the non-empty trimmed text of the caller's value, and a value that trims
to the empty string becomes null. -/
def TrimmedOrNull (orig out : Option String) : Prop :=
  (out = none ∨ ∃ s, orig = some s ∧ out = some (trimWS s) ∧ trimWS s ≠ "") ∧
  (∀ s, orig = some s → trimWS s = "" → out = none)

end SSE

/-! Helper lemmas. -/

/-- Appending to a fixed string on the left is injective. -/
theorem SSE.string_append_right_inj (s : String) {a b : String} (h : s ++ a = s ++ b) :
    a = b := by
  have hd : (s ++ a).data = (s ++ b).data := congrArg String.data h
  simp only [String.data_append] at hd
  exact String.ext (List.append_cancel_left hd)

/-- Keys for surveys with different normalized identifiers differ. -/
theorem SSE.managerTokenKey_ne {A B : String}
    (h : SSE.normalizeSurveyId A ≠ SSE.normalizeSurveyId B) :
    SSE.managerTokenKey A ≠ SSE.managerTokenKey B := by
  intro he
  exact h (SSE.string_append_right_inj (SSE.MANAGER_TOKEN_KEY ++ "_") he)

/-- Each normalized optional field satisfies the `TrimmedOrNull` shape. -/
theorem SSE.normalizeOptionalField_trimmedOrNull (x : Option String) :
    SSE.TrimmedOrNull x (SSE.normalizeOptionalField x) := by
  unfold SSE.TrimmedOrNull SSE.normalizeOptionalField
  cases x with
  | none => exact ⟨Or.inl rfl, by simp⟩
  | some s =>
    by_cases h : SSE.trimWS s = ""
    · exact ⟨Or.inl (by simp [h]), by simp [h]⟩
    · exact ⟨Or.inr ⟨s, rfl, by simp [h], h⟩, by simp [h]⟩

/-! Claims C1 - C10. -/

/-- C1: the priority score the program derives and displays equals
`(importance + urgency + expected_impact) * 2 + supporter_points`; in
particular importance=2, urgency=1, impact=1, supporterPoints=0 yields 8. -/
theorem SSE.c1_score_formula :
    (∀ importance urgency expected_impact supporter_points : Int,
      SSE.editFormScore importance urgency expected_impact supporter_points =
        (importance + urgency + expected_impact) * 2 + supporter_points) ∧
    SSE.editFormScore 2 1 1 0 = 8 := by
  exact ⟨fun _ _ _ _ => rfl, rfl⟩

/-- C2 counterexample: the frontend score expression performs no clamping,
so the out-of-range input quadruple (3, 3, 3, 3) produces 21, outside
[0, 14], refuting the claim that every integer input quadruple is clamped
to [0, 2] before the score is computed. -/
theorem SSE.c2_no_clamping_counterexample :
    SSE.editFormScore 3 3 3 3 = 21 ∧ ¬ SSE.editFormScore 3 3 3 3 ≤ 14 := by
  refine ⟨?_, ?_⟩ <;> simp [SSE.editFormScore]

/-- C2 (amended): the frontend performs no clamping; instead the edit-form
selects only offer the values 0, 1 and 2 for each field, and for any inputs
each within [0, 2] the computed priority score lies in [0, 14]. -/
theorem SSE.c2_score_range (i u e sp : Int)
    (hi0 : 0 ≤ i) (hi2 : i ≤ 2) (hu0 : 0 ≤ u) (hu2 : u ≤ 2)
    (he0 : 0 ≤ e) (he2 : e ≤ 2) (hs0 : 0 ≤ sp) (hs2 : sp ≤ 2) :
    0 ≤ SSE.editFormScore i u e sp ∧ SSE.editFormScore i u e sp ≤ 14 := by
  unfold SSE.editFormScore
  omega

/-- Witness for C2 (amended) at the concrete input (2, 1, 1, 0). -/
theorem SSE.c2_score_range_witness :
    0 ≤ SSE.editFormScore 2 1 1 0 ∧ SSE.editFormScore 2 1 1 0 ≤ 14 :=
  SSE.c2_score_range 2 1 1 0 (by decide) (by decide) (by decide) (by decide)
    (by decide) (by decide) (by decide) (by decide)

/-- C3: both star-tier implementations follow the inclusive lower-bound
mapping: s ≥ 12 gives tier 5, s ≥ 9 gives tier 4, s ≥ 6 gives tier 3,
s ≥ 3 gives tier 2, and any other s gives tier 1. -/
theorem SSE.c3_tier_mapping (s : Int) :
    (12 ≤ s → SSE.priorityStars_full s = 5 ∧ SSE.managerStarRatingFull s = 5) ∧
    (9 ≤ s → s < 12 → SSE.priorityStars_full s = 4 ∧ SSE.managerStarRatingFull s = 4) ∧
    (6 ≤ s → s < 9 → SSE.priorityStars_full s = 3 ∧ SSE.managerStarRatingFull s = 3) ∧
    (3 ≤ s → s < 6 → SSE.priorityStars_full s = 2 ∧ SSE.managerStarRatingFull s = 2) ∧
    (s < 3 → SSE.priorityStars_full s = 1 ∧ SSE.managerStarRatingFull s = 1) := by
  refine ⟨?_, ?_, ?_, ?_, ?_⟩ <;> intros <;>
    simp only [SSE.priorityStars_full, SSE.managerStarRatingFull] <;>
    split_ifs <;> omega

/-- Witness for C3 at one concrete score in each tier band. -/
theorem SSE.c3_tier_mapping_witness :
    (SSE.priorityStars_full 13 = 5 ∧ SSE.managerStarRatingFull 13 = 5) ∧
    (SSE.priorityStars_full 10 = 4 ∧ SSE.managerStarRatingFull 10 = 4) ∧
    (SSE.priorityStars_full 7 = 3 ∧ SSE.managerStarRatingFull 7 = 3) ∧
    (SSE.priorityStars_full 4 = 2 ∧ SSE.managerStarRatingFull 4 = 2) ∧
    (SSE.priorityStars_full 0 = 1 ∧ SSE.managerStarRatingFull 0 = 1) :=
  ⟨(SSE.c3_tier_mapping 13).1 (by decide),
   (SSE.c3_tier_mapping 10).2.1 (by decide) (by decide),
   (SSE.c3_tier_mapping 7).2.2.1 (by decide) (by decide),
   (SSE.c3_tier_mapping 4).2.2.2.1 (by decide) (by decide),
   (SSE.c3_tier_mapping 0).2.2.2.2 (by decide)⟩

/-- C4: the score-to-tier function is monotonic non-decreasing, and for
valid inputs (each in [0, 2]) the score lies in [0, 14]. -/
theorem SSE.c4_tier_monotone_score_range (s1 s2 i u e sp : Int)
    (h12 : s1 ≤ s2)
    (hi0 : 0 ≤ i) (hi2 : i ≤ 2) (hu0 : 0 ≤ u) (hu2 : u ≤ 2)
    (he0 : 0 ≤ e) (he2 : e ≤ 2) (hs0 : 0 ≤ sp) (hs2 : sp ≤ 2) :
    SSE.priorityStars_full s1 ≤ SSE.priorityStars_full s2 ∧
    0 ≤ SSE.editFormScore i u e sp ∧ SSE.editFormScore i u e sp ≤ 14 := by
  refine ⟨?_, ?_⟩
  · simp only [SSE.priorityStars_full]
    split_ifs <;> omega
  · unfold SSE.editFormScore
    omega

/-- Witness for C4 at s1 = 5, s2 = 11 and the input (2, 1, 1, 0). -/
theorem SSE.c4_witness :
    SSE.priorityStars_full 5 ≤ SSE.priorityStars_full 11 ∧
    0 ≤ SSE.editFormScore 2 1 1 0 ∧ SSE.editFormScore 2 1 1 0 ≤ 14 :=
  SSE.c4_tier_monotone_score_range 5 11 2 1 1 0 (by decide) (by decide) (by decide)
    (by decide) (by decide) (by decide) (by decide) (by decide) (by decide)

/-- C5: a successful publish of a raw response makes a second publish
attempt for the same raw response fail with `DuplicatePublish`, preserves
the at-most-one-opinion-per-response invariant, and the moderation view
never offers a publish form for a response whose id is already among the
published raw-response ids. -/
theorem SSE.c5_duplicate_publish (ops ops2 : List SSE.PublishedOpinionRec)
    (o1 o2 : SSE.PublishedOpinionRec) (r : String)
    (hpub : SSE.publishOpinion ops o1 = .ok ops2)
    (hsame : o2.raw_response_id = o1.raw_response_id)
    (hinv : SSE.AtMostOnePerResponse ops)
    (hr : r ∈ SSE.publishedResponseIds ops2) :
    SSE.publishOpinion ops2 o2 = .error .DuplicatePublish ∧
    SSE.AtMostOnePerResponse ops2 ∧
    SSE.offersPublishForm ops2 r = false := by
  unfold SSE.publishOpinion at hpub
  split at hpub
  · exact absurd hpub (by simp)
  · rename_i hnone
    obtain rfl : ops ++ [o1] = ops2 := by simpa using hpub
    simp only [List.any_eq_true, not_exists, not_and, Bool.not_eq_true] at hnone
    refine ⟨?_, ?_, ?_⟩
    · unfold SSE.publishOpinion
      rw [if_pos]
      simp [hsame]
    · unfold SSE.AtMostOnePerResponse at hinv ⊢
      simp only [List.pairwise_append, List.pairwise_cons, List.mem_singleton]
      refine ⟨hinv, by simp, ?_⟩
      intro a ha b hb
      subst hb
      have := hnone a ha
      simp only [beq_eq_false_iff_ne, ne_eq] at this
      exact this
    · unfold SSE.offersPublishForm
      simp only [Bool.not_eq_false', List.contains_eq_any_beq, List.any_eq_true]
      exact ⟨r, by simpa using hr, by simp⟩

/-- Witness for C5: publishing response "r1" into an empty opinion list,
then attempting it again. -/
theorem SSE.c5_witness :
    SSE.publishOpinion [⟨1, "r1", "t", "c"⟩] ⟨2, "r1", "t2", "c2"⟩ =
      .error .DuplicatePublish ∧
    SSE.AtMostOnePerResponse [⟨1, "r1", "t", "c"⟩] ∧
    SSE.offersPublishForm [⟨1, "r1", "t", "c"⟩] "r1" = false :=
  SSE.c5_duplicate_publish [] [⟨1, "r1", "t", "c"⟩] ⟨1, "r1", "t", "c"⟩
    ⟨2, "r1", "t2", "c2"⟩ "r1" rfl rfl (by constructor) (by simp [SSE.publishedResponseIds])

/-- C6: after an accepted support call for (opinion, fingerprint), a second
call with the same pair returns `AlreadySupported` without creating a
second row, the at-most-one-upvote-per-pair invariant is preserved, the
accepted call incremented the supporter count by exactly one, the public
opinion view offers no Support action once `current_user_has_supported` is
true, and the cache update gives the supported opinion exactly one more
displayed supporter while leaving every other opinion unchanged. -/
theorem SSE.c6_upvote_dedup (ups ups2 : List SSE.UpvoteRec) (oid : Int) (fp : String)
    (o : SSE.PublicOpinionItem) (x : Option Int)
    (hacc : SSE.support ups oid fp = (.Accepted, ups2))
    (hinv : SSE.AtMostOnePerPair ups)
    (hsup : o.current_user_has_supported = true) :
    SSE.support ups2 oid fp = (.AlreadySupported, ups2) ∧
    SSE.AtMostOnePerPair ups2 ∧
    SSE.supporterCount ups2 oid = SSE.supporterCount ups oid + 1 ∧
    SSE.supportControl o x = .alreadySupported ∧
    (∀ p : SSE.PublicOpinionItem,
      (p.id = oid →
        (SSE.applyUpvoteSuccessOne oid p).supporters = some (p.supporters.getD 0 + 1) ∧
        (SSE.applyUpvoteSuccessOne oid p).current_user_has_supported = true) ∧
      (p.id ≠ oid → SSE.applyUpvoteSuccessOne oid p = p)) := by
  unfold SSE.support at hacc
  split at hacc
  · exact absurd (congrArg Prod.fst hacc) (by simp)
  · rename_i hnone
    obtain rfl : ups ++ [⟨oid, fp⟩] = ups2 := congrArg Prod.snd hacc
    simp only [List.any_eq_true, not_exists, not_and, Bool.not_eq_true] at hnone
    refine ⟨?_, ?_, ?_, ?_, ?_⟩
    · unfold SSE.support
      rw [if_pos]
      simp
    · unfold SSE.AtMostOnePerPair at hinv ⊢
      simp only [List.pairwise_append, List.pairwise_cons, List.mem_singleton]
      refine ⟨hinv, by simp, ?_⟩
      intro a ha b hb
      subst hb
      have := hnone a ha
      simp only [Bool.and_eq_false_iff, beq_eq_false_iff_ne, ne_eq] at this
      simpa using this
    · simp [SSE.supporterCount, List.filter_append]
    · unfold SSE.supportControl
      rw [if_pos hsup]
    · intro p
      refine ⟨fun hid => ?_, fun hid => ?_⟩
      · unfold SSE.applyUpvoteSuccessOne
        rw [if_pos (by simpa using hid)]
        exact ⟨rfl, rfl⟩
      · unfold SSE.applyUpvoteSuccessOne
        rw [if_neg (by simpa using hid)]

/-- Witness for C6: an accepted support for opinion 1 with fingerprint
"f" on an empty upvote table, with an already-supported opinion card. -/
theorem SSE.c6_witness :
    SSE.support [⟨1, "f"⟩] 1 "f" = (.AlreadySupported, [⟨1, "f"⟩]) ∧
    SSE.AtMostOnePerPair [⟨1, "f"⟩] ∧
    SSE.supporterCount [⟨1, "f"⟩] 1 = SSE.supporterCount [] 1 + 1 ∧
    SSE.supportControl ⟨1, some 1, true⟩ none = .alreadySupported ∧
    (∀ p : SSE.PublicOpinionItem,
      (p.id = 1 →
        (SSE.applyUpvoteSuccessOne 1 p).supporters = some (p.supporters.getD 0 + 1) ∧
        (SSE.applyUpvoteSuccessOne 1 p).current_user_has_supported = true) ∧
      (p.id ≠ 1 → SSE.applyUpvoteSuccessOne 1 p = p)) :=
  SSE.c6_upvote_dedup [] [⟨1, "f"⟩] 1 "f" ⟨1, some 1, true⟩ none rfl
    (by constructor) rfl

/-- C7: a manager token carries no capability beyond its survey: storing a
token for survey A never changes what `getManagerToken` returns for a
survey B with a different normalized identifier; `managerHeaders` depends
only on the value stored under the survey's own key; and the modelled
backend rejects a token presented against a different survey identifier. -/
theorem SSE.c7_token_scoping (store store2 : SSE.LocalStorage) (A B t sid : String)
    (tok : SSE.ManagerToken)
    (hAB : SSE.normalizeSurveyId A ≠ SSE.normalizeSurveyId B)
    (hagree : store (SSE.managerTokenKey sid) = store2 (SSE.managerTokenKey sid))
    (hscope : tok.survey_id ≠ sid) :
    SSE.getManagerToken (SSE.setManagerToken store A t) B = SSE.getManagerToken store B ∧
    SSE.managerAuthHeader store sid = SSE.managerAuthHeader store2 sid ∧
    SSE.verifyManagerToken tok sid = .error .AuthDenied := by
  refine ⟨?_, ?_, ?_⟩
  · unfold SSE.getManagerToken SSE.setManagerToken
    rw [if_neg]
    exact fun he => SSE.managerTokenKey_ne hAB he.symm
  · unfold SSE.managerAuthHeader SSE.getManagerToken
    rw [hagree]
  · unfold SSE.verifyManagerToken
    rw [if_neg]
    simpa using hscope

/-- Witness for C7: survey ":U" versus survey "V", an otherwise-different
second store agreeing on V's key, and a token issued for "U". -/
theorem SSE.c7_witness :
    SSE.getManagerToken
        (SSE.setManagerToken (fun _ => none) ":U" "tokU") "V" =
      SSE.getManagerToken (fun _ => none) "V" ∧
    SSE.managerAuthHeader (fun _ => none) "V" =
      SSE.managerAuthHeader (SSE.setManagerToken (fun _ => none) ":U" "tokU") "V" ∧
    SSE.verifyManagerToken ⟨"U"⟩ "V" = .error .AuthDenied := by
  refine SSE.c7_token_scoping (fun _ => none)
      (SSE.setManagerToken (fun _ => none) ":U" "tokU") ":U" "V" "tokU" "V" ⟨"U"⟩
      ?_ ?_ ?_
  · decide
  · unfold SSE.setManagerToken
    rw [if_neg]
    exact fun he => SSE.managerTokenKey_ne (by decide) he.symm
  · decide

/-- C8: for a survey whose contract end date is past (but not yet purged),
a submit-response call fails with `SurveyNotActive`, the submission page
renders the closed notice (so it never issues a submit request), and the
read-only list-questions and search-opinions calls still succeed. -/
theorem SSE.c8_not_active (s : SSE.SurveyTenant) (now : Int) (q : String)
    (hpast : s.contract_end_date < now)
    (hgrace : now ≤ s.deletion_due_date) :
    SSE.submitResponse s now = .error .SurveyNotActive ∧
    SSE.surveyPostView (SSE.deriveStatus s.contract_end_date s.deletion_due_date now) =
      .closed ∧
    SSE.listQuestionsApi s now = .ok s.questions ∧
    SSE.searchOpinionsApi s now "" = .ok s.opinions ∧
    (∃ res, SSE.searchOpinionsApi s now q = .ok res) := by
  have hstat : SSE.deriveStatus s.contract_end_date s.deletion_due_date now = "suspended" := by
    unfold SSE.deriveStatus
    rw [if_neg (by omega), if_pos hpast]
  refine ⟨?_, ?_, ?_, ?_, ?_⟩
  · unfold SSE.submitResponse
    rw [hstat, if_pos (by decide)]
  · unfold SSE.surveyPostView
    rw [hstat, if_pos (by decide)]
  · unfold SSE.listQuestionsApi
    rw [hstat, if_neg (by decide)]
  · unfold SSE.searchOpinionsApi
    rw [hstat, if_neg (by decide), if_pos rfl]
  · unfold SSE.searchOpinionsApi
    rw [hstat, if_neg (by decide)]
    exact ⟨_, rfl⟩

/-- Witness for C8: a survey whose contract ended at time 0, observed at
time 5, with deletion due at time 90. -/
theorem SSE.c8_witness :
    SSE.submitResponse ⟨0, 90, [], []⟩ 5 = .error .SurveyNotActive ∧
    SSE.surveyPostView (SSE.deriveStatus 0 90 5) = .closed ∧
    SSE.listQuestionsApi ⟨0, 90, [], []⟩ 5 = .ok [] ∧
    SSE.searchOpinionsApi ⟨0, 90, [], []⟩ 5 "" = .ok [] ∧
    (∃ res, SSE.searchOpinionsApi ⟨0, 90, [], []⟩ 5 "office" = .ok res) :=
  SSE.c8_not_active ⟨0, 90, [], []⟩ 5 "office" (by decide) (by decide)

/-- C9: every answer in the submitted payload comes from a question whose
entered text trims to a non-empty string, its text is that trimmed value,
and its disclosure flag is false for non-personal-data questions and the
form-wide checkbox value for personal-data questions. -/
theorem SSE.c9_submission_payload (questions : List SSE.QuestionRec)
    (answers : Nat → Option String) (disclosureAgreed : Bool) (e : SSE.AnswerSubmit)
    (he : e ∈ SSE.handleSubmitPayload questions answers disclosureAgreed) :
    ∃ q ∈ questions,
      e.question_id = q.id ∧
      (∃ s, answers q.id = some s ∧ e.answer_text = SSE.trimWS s) ∧
      e.answer_text ≠ "" ∧
      e.is_disclosure_agreed = (if q.is_personal_data then disclosureAgreed else false) ∧
      (q.is_personal_data = false → e.is_disclosure_agreed = false) := by
  unfold SSE.handleSubmitPayload at he
  rw [List.mem_map] at he
  obtain ⟨q, hq, rfl⟩ := he
  rw [List.mem_filter] at hq
  obtain ⟨hqmem, hpred⟩ := hq
  refine ⟨q, hqmem, rfl, ?_, ?_, rfl, ?_⟩
  · cases hans : answers q.id with
    | none => rw [hans] at hpred; exact absurd hpred (by simp)
    | some s => exact ⟨s, rfl, by simp [hans]⟩
  · cases hans : answers q.id with
    | none => rw [hans] at hpred; exact absurd hpred (by simp)
    | some s =>
      rw [hans] at hpred
      simp only [hans]
      simpa using hpred
  · intro hpd
    simp [hpd]

/-- Witness for C9: a two-question survey where only question 1 (not
personal data) has a non-blank answer. -/
theorem SSE.c9_witness :
    ∃ q ∈ [(⟨1, true, false⟩ : SSE.QuestionRec), ⟨2, false, true⟩],
      (1 : Nat) = q.id ∧
      (∃ s, (fun n => if n = 1 then some " hi " else none) q.id = some s ∧
        "hi" = SSE.trimWS s) ∧
      ("hi" : String) ≠ "" ∧
      (false : Bool) = (if q.is_personal_data then true else false) ∧
      (q.is_personal_data = false → (false : Bool) = false) := by
  have h := SSE.c9_submission_payload
    [(⟨1, true, false⟩ : SSE.QuestionRec), ⟨2, false, true⟩]
    (fun n => if n = 1 then some " hi " else none) true
    ⟨1, "hi", false⟩ (by decide)
  simpa using h

/-- C10: in the body `postUpvote` sends, each of comment, dept, name and
email is null or a non-empty trimmed string (blank or whitespace-only
inputs become null), and the disclosure flag is false whenever the caller
omitted it. -/
theorem SSE.c10_upvote_body (p : SSE.UpvoteCreatePayload) :
    SSE.TrimmedOrNull p.comment (SSE.postUpvoteBody p).comment ∧
    SSE.TrimmedOrNull p.dept (SSE.postUpvoteBody p).dept ∧
    SSE.TrimmedOrNull p.name (SSE.postUpvoteBody p).name ∧
    SSE.TrimmedOrNull p.email (SSE.postUpvoteBody p).email ∧
    (p.is_disclosure_agreed = none → (SSE.postUpvoteBody p).is_disclosure_agreed = false) ∧
    (∀ b, p.is_disclosure_agreed = some b → (SSE.postUpvoteBody p).is_disclosure_agreed = b) := by
  refine ⟨SSE.normalizeOptionalField_trimmedOrNull _,
    SSE.normalizeOptionalField_trimmedOrNull _,
    SSE.normalizeOptionalField_trimmedOrNull _,
    SSE.normalizeOptionalField_trimmedOrNull _, ?_, ?_⟩
  · intro h
    simp [SSE.postUpvoteBody, h]
  · intro b h
    simp [SSE.postUpvoteBody, h]

/-- Witness for C10: a payload with a comment that trims to "a", a
whitespace-only dept, no name, an empty email and no disclosure flag. -/
theorem SSE.c10_witness :
    SSE.TrimmedOrNull (some " a ")
      (SSE.postUpvoteBody ⟨some " a ", some "  ", none, some "", none⟩).comment ∧
    (SSE.postUpvoteBody ⟨some " a ", some "  ", none, some "", none⟩).is_disclosure_agreed
      = false :=
  ⟨(SSE.c10_upvote_body ⟨some " a ", some "  ", none, some "", none⟩).1,
   (SSE.c10_upvote_body ⟨some " a ", some "  ", none, some "", none⟩).2.2.2.2.1 rfl⟩
